import Mathlib

/-!
Shallow embedding of the leader-election engine of
`nestjs-k8s-leader-election` (src/leader-election.service.ts).

Times are wall-clock milliseconds modelled as integers (`Date.now()`
returns integer milliseconds; `V1MicroTime` stamps are taken at ms
precision).  The one JS real-number division, `durationInSeconds =
2 * (renewalInterval / 1000)`, is modelled with integer division; it
agrees exactly with the source whenever `renewalInterval` is a whole
number of seconds (the default is 10000 ms, and the Lease API
declares `leaseDurationSeconds` as an integer field).  The Kubernetes client is a plain
RPC surface: each method of the service that performs lease RPCs takes
the outcomes of those RPCs as explicit parameters and records the calls
it issues in an RPC log.  `setTimeout` handles are modelled as fresh
natural-number identifiers; the multiset of currently pending renewal
timers is the `pendingTimers` list.  Callbacks that the service defers
with `setTimeout(cb, delay)` other than the renewal timer (the 2-second
settle delays of the watch handlers, the 5-second watch restart) are
recorded in a `deferred` list of (delay, action) pairs.
-/

namespace LeaderElection

/-- The `spec` part of a `V1Lease` object, restricted to the fields the
service reads or writes.  `none` models a JS `null`/`undefined` field. -/
structure LeaseSpec where
  holderIdentity : Option String
  leaseDurationSeconds : Option ℤ
  acquireTime : Option ℤ
  renewTime : Option ℤ
deriving DecidableEq, Repr

/-- A lease object: `metadata.name` plus its spec. -/
structure V1Lease where
  name : String
  spec : LeaseSpec
deriving DecidableEq, Repr

/-- Events emitted on the host event bus: topics `leader.elected` and
`leader.lost`, each with the lease name as payload. -/
inductive LeaderEvent
  | elected (leaseName : String)
  | lost (leaseName : String)
deriving DecidableEq, Repr

/-- A lease RPC issued by the service, with the request body where one
is sent (`replaceNamespacedLease` / `createNamespacedLease`). -/
inductive RpcCall
  | read
  | create (body : V1Lease)
  | replace (body : V1Lease)
  | watchStart
deriving DecidableEq, Repr

/-- A callback the service deferred with `setTimeout` (other than the
lease-renewal timer, which is tracked separately). -/
inductive DeferredAction
  | runBecomeLeader
  | runHandleLeaseUpdate (lease : V1Lease)
  | runHandleLeaseDeletion
  | restartWatch
deriving DecidableEq, Repr

/-- Service configuration after the constructor applied defaults:
`leaseName`, namespace, `renewalInterval` (ms) and the computed
`LEADER_IDENTITY` string. -/
structure Config where
  leaseName : String
  ns : String
  renewalInterval : ℤ
  identity : String
deriving DecidableEq, Repr

/-- `this.durationInSeconds = 2 * (this.renewalInterval / 1000)`. -/
def Config.durationInSeconds (cfg : Config) : ℤ :=
  2 * (cfg.renewalInterval / 1000)

/-- The mutable state of a `LeaderElectionService` instance, together
with observation logs (events emitted, RPCs issued, deferred
callbacks). -/
structure ServiceState where
  isLeader : Bool
  leaseRenewalTimeout : Option Nat
  pendingTimers : List Nat
  nextTimerId : Nat
  events : List LeaderEvent
  rpcs : List RpcCall
  deferred : List (ℤ × DeferredAction)
deriving DecidableEq, Repr

/-- Fresh service: `isLeader = false`, no timer, nothing observed. -/
def initialState : ServiceState :=
  { isLeader := false
    leaseRenewalTimeout := none
    pendingTimers := []
    nextTimerId := 0
    events := []
    rpcs := []
    deferred := [] }

/-- Append an RPC to the log. -/
def logRpc (s : ServiceState) (c : RpcCall) : ServiceState :=
  { s with rpcs := s.rpcs ++ [c] }

/-- JS truthiness of `lease.spec.holderIdentity`: `undefined`, `null`
and the empty string are falsy. -/
def holderPresent (l : V1Lease) : Bool :=
  match l.spec.holderIdentity with
  | none => false
  | some h => !(h == "")

/-- `isLeaseHeldByUs`: strict equality of `holderIdentity` with
`LEADER_IDENTITY`. -/
def isLeaseHeldByUs (cfg : Config) (l : V1Lease) : Bool :=
  l.spec.holderIdentity == some cfg.identity

/-- The `renewTime` used by `isLeaseExpired`: the stamp in ms, or `0`
when the field is absent. -/
def renewTimeMs (l : V1Lease) : ℤ :=
  match l.spec.renewTime with
  | some t => t
  | none => 0

/-- `leaseDurationMs` of `isLeaseExpired`:
`(lease.spec.leaseDurationSeconds || this.durationInSeconds) * 1000`;
the JS `||` falls back to the configured duration when the field is
absent or `0`. -/
def leaseDurationMs (cfg : Config) (l : V1Lease) : ℤ :=
  (match l.spec.leaseDurationSeconds with
   | none => cfg.durationInSeconds
   | some d => if d = 0 then cfg.durationInSeconds else d) * 1000

/-- `isLeaseExpired`: `Date.now() > renewTime + leaseDurationMs`, with
`now` passed explicitly. -/
def isLeaseExpired (cfg : Config) (l : V1Lease) (now : ℤ) : Bool :=
  decide (now > renewTimeMs l + leaseDurationMs cfg l)

/-- `emitLeaderElectedEvent`: emit `leader.elected` with the lease
name. -/
def emitLeaderElectedEvent (cfg : Config) (s : ServiceState) : ServiceState :=
  { s with events := s.events ++ [.elected cfg.leaseName] }

/-- `emitLeadershipLostEvent`: emit `leader.lost` with the lease
name. -/
def emitLeadershipLostEvent (cfg : Config) (s : ServiceState) : ServiceState :=
  { s with events := s.events ++ [.lost cfg.leaseName] }

/-- `scheduleLeaseRenewal`: `clearTimeout` the existing handle when one
is stored, then `setTimeout` a fresh renewal timer for
`renewalInterval` ms and store its handle. -/
def scheduleLeaseRenewal (s : ServiceState) : ServiceState :=
  let s1 :=
    match s.leaseRenewalTimeout with
    | some id => { s with pendingTimers := s.pendingTimers.filter (fun t => t != id) }
    | none => s
  { s1 with
    pendingTimers := s1.pendingTimers ++ [s1.nextTimerId]
    leaseRenewalTimeout := some s1.nextTimerId
    nextTimerId := s1.nextTimerId + 1 }

/-- `becomeLeader`: unconditionally set `isLeader = true`, emit
`leader.elected`, schedule the renewal timer. -/
def becomeLeader (cfg : Config) (s : ServiceState) : ServiceState :=
  scheduleLeaseRenewal (emitLeaderElectedEvent cfg { s with isLeader := true })

/-- `loseLeadership`: when leader, set `isLeader = false`, clear the
renewal timer handle (if any) and emit `leader.lost`; otherwise do
nothing. -/
def loseLeadership (cfg : Config) (s : ServiceState) : ServiceState :=
  if s.isLeader then
    let s1 := { s with isLeader := false }
    let s2 :=
      match s1.leaseRenewalTimeout with
      | some id =>
          { s1 with
            pendingTimers := s1.pendingTimers.filter (fun t => t != id)
            leaseRenewalTimeout := none }
      | none => s1
    emitLeadershipLostEvent cfg s2
  else s

/-- Outcome of `readNamespacedLease`: a lease, a 404, or another
error (thrown). -/
inductive ReadOutcome
  | ok (lease : V1Lease)
  | notFound
  | err
deriving DecidableEq, Repr

/-- Outcome of `createNamespacedLease` / `replaceNamespacedLease`: the
body returned by the server, or an error (thrown). -/
inductive RpcOutcome
  | ok (lease : V1Lease)
  | err
deriving DecidableEq, Repr

/-- The lease body `createLease` constructs: our identity, the
configured duration, `acquireTime = renewTime = now`. -/
def createBody (cfg : Config) (now : ℤ) : V1Lease :=
  { name := cfg.leaseName
    spec :=
      { holderIdentity := some cfg.identity
        leaseDurationSeconds := some cfg.durationInSeconds
        acquireTime := some now
        renewTime := some now } }

/-- `createLease`: POST the constructed body; `none` models a thrown
error. -/
def createLease (cfg : Config) (s : ServiceState) (cr : RpcOutcome) (now : ℤ) :
    ServiceState × Option V1Lease :=
  let s1 := logRpc s (.create (createBody cfg now))
  match cr with
  | .ok l => (s1, some l)
  | .err => (s1, none)

/-- `getLease`: read the lease; on 404 fall through to `createLease`;
any other error is rethrown (`none`). -/
def getLease (cfg : Config) (s : ServiceState) (rd : ReadOutcome) (cr : RpcOutcome)
    (now : ℤ) : ServiceState × Option V1Lease :=
  let s1 := logRpc s .read
  match rd with
  | .ok l => (s1, some l)
  | .err => (s1, none)
  | .notFound => createLease cfg s1 cr now

/-- The body `acquireLease` writes: the read lease with our identity,
the configured duration and fresh `acquireTime`/`renewTime`. -/
def acquireBody (cfg : Config) (lease : V1Lease) (now : ℤ) : V1Lease :=
  { lease with
    spec :=
      { lease.spec with
        holderIdentity := some cfg.identity
        leaseDurationSeconds := some cfg.durationInSeconds
        acquireTime := some now
        renewTime := some now } }

/-- `acquireLease`: PUT the overwritten lease; errors are rethrown
(`none`). -/
def acquireLease (cfg : Config) (s : ServiceState) (lease : V1Lease) (rep : RpcOutcome)
    (now : ℤ) : ServiceState × Option V1Lease :=
  let s1 := logRpc s (.replace (acquireBody cfg lease now))
  match rep with
  | .ok l => (s1, some l)
  | .err => (s1, none)

/-- `tryToBecomeLeader`: read (or lazily create) the lease; if it is
expired or unheld, acquire it; if the resulting lease is held by us,
`becomeLeader`.  All errors are caught and only logged. -/
def tryToBecomeLeader (cfg : Config) (s : ServiceState) (rd : ReadOutcome)
    (cr : RpcOutcome) (rep : RpcOutcome) (now : ℤ) : ServiceState :=
  match getLease cfg s rd cr now with
  | (s1, none) => s1
  | (s1, some lease) =>
      if isLeaseExpired cfg lease now || !holderPresent lease then
        match acquireLease cfg s1 lease rep now with
        | (s2, none) => s2
        | (s2, some lease2) =>
            if isLeaseHeldByUs cfg lease2 then becomeLeader cfg s2 else s2
      else
        if isLeaseHeldByUs cfg lease then becomeLeader cfg s1 else s1

/-- The body `renewLease` writes on renewal: the read lease with
`renewTime = now`. -/
def renewBody (lease : V1Lease) (now : ℤ) : V1Lease :=
  { lease with spec := { lease.spec with renewTime := some now } }

/-- `renewLease`: re-read the lease; if held by us, PUT it back with
`renewTime = now` — on success simply return, on a thrown replace
error the outer catch runs `loseLeadership`.  If the read fails or the
lease is not held by us, `loseLeadership`. -/
def renewLease (cfg : Config) (s : ServiceState) (rd : ReadOutcome) (cr : RpcOutcome)
    (rep : RpcOutcome) (now : ℤ) : ServiceState :=
  match getLease cfg s rd cr now with
  | (s1, none) => loseLeadership cfg s1
  | (s1, some lease) =>
      if isLeaseHeldByUs cfg lease then
        let s2 := logRpc s1 (.replace (renewBody lease now))
        match rep with
        | .ok _ => s2
        | .err => loseLeadership cfg s2
      else loseLeadership cfg s1

/-- The body `releaseLease` writes: holder and `renewTime` cleared. -/
def releaseBody (lease : V1Lease) : V1Lease :=
  { lease with
    spec := { lease.spec with holderIdentity := none, renewTime := none } }

/-- `releaseLease`: re-read; if held by us PUT back with holder and
`renewTime` cleared.  Every error is caught and swallowed; `isLeader`
is never touched. -/
def releaseLease (cfg : Config) (s : ServiceState) (rd : ReadOutcome) (cr : RpcOutcome)
    (_rep : RpcOutcome) (now : ℤ) : ServiceState :=
  match getLease cfg s rd cr now with
  | (s1, none) => s1
  | (s1, some lease) =>
      if isLeaseHeldByUs cfg lease then
        logRpc s1 (.replace (releaseBody lease))
      else s1

/-- `gracefulShutdown` (SIGINT/SIGTERM handler): release the lease when
leader; otherwise do nothing. -/
def gracefulShutdown (cfg : Config) (s : ServiceState) (rd : ReadOutcome)
    (cr : RpcOutcome) (rep : RpcOutcome) (now : ℤ) : ServiceState :=
  if s.isLeader then releaseLease cfg s rd cr rep now else s

/-- The RPC outcomes and clock reading one `tryToBecomeLeader` attempt
observes. -/
structure AttemptEnv where
  rd : ReadOutcome
  cr : RpcOutcome
  rep : RpcOutcome
  now : ℤ
deriving DecidableEq, Repr

/-- One step of the bootstrap acquisition sequence, for tracing: an
acquisition attempt or a sleep of the given duration (ms). -/
inductive ProcStep
  | attempt
  | sleep (ms : ℤ)
deriving DecidableEq, Repr

/-- Run one acquisition attempt from an `AttemptEnv`. -/
def attemptWith (cfg : Config) (s : ServiceState) (e : AttemptEnv) : ServiceState :=
  tryToBecomeLeader cfg s e.rd e.cr e.rep e.now

/-- `runLeaderElectionProcess`: one attempt, then up to two retries; a
retry is skipped (loop break) once `isLeader` is true, and each retry
is preceded by a sleep of `durationInSeconds * 500` ms.  The loop is
bounded by the literal `2`, so it is unrolled here. -/
def runLeaderElectionProcess (cfg : Config) (s : ServiceState)
    (e0 e1 e2 : AttemptEnv) : ServiceState × List ProcStep :=
  let d := cfg.durationInSeconds * 500
  let s0 := attemptWith cfg s e0
  if s0.isLeader then (s0, [.attempt])
  else
    let s1 := attemptWith cfg s0 e1
    if s1.isLeader then (s1, [.attempt, .sleep d, .attempt])
    else
      let s2 := attemptWith cfg s1 e2
      (s2, [.attempt, .sleep d, .attempt, .sleep d, .attempt])

/-- JS truthiness of `process.env.KUBERNETES_SERVICE_HOST`: unset or
empty is falsy. -/
def envPresent (v : Option String) : Bool :=
  match v with
  | none => false
  | some x => !(x == "")

/-- `onApplicationBootstrap`: without the service-host variable, force
`isLeader = true` and emit `leader.elected` (no RPC, no timer, no
watch).  Otherwise start the watch and run the election process (the
`awaitLeadership` flag only decides whether the caller awaits it). -/
def onApplicationBootstrap (cfg : Config) (s : ServiceState)
    (kubernetesServiceHost : Option String) (e0 e1 e2 : AttemptEnv) :
    ServiceState × List ProcStep :=
  if !envPresent kubernetesServiceHost then
    (emitLeaderElectedEvent cfg { s with isLeader := true }, [])
  else
    runLeaderElectionProcess cfg (logRpc s .watchStart) e0 e1 e2

/-- `handleLeaseUpdate`: when the lease is held by us, defer
`becomeLeader` by 2 s if not already leader, and (re)schedule renewal
in every case; when held by someone else and we are leader,
`loseLeadership`. -/
def handleLeaseUpdate (cfg : Config) (s : ServiceState) (leaseObj : V1Lease) :
    ServiceState :=
  if isLeaseHeldByUs cfg leaseObj then
    let s1 :=
      if !s.isLeader then
        { s with deferred := s.deferred ++ [(2000, .runBecomeLeader)] }
      else s
    scheduleLeaseRenewal s1
  else if s.isLeader then loseLeadership cfg s
  else s

/-- `handleLeaseDeletion`: when not leader, try to become leader. -/
def handleLeaseDeletion (cfg : Config) (s : ServiceState) (rd : ReadOutcome)
    (cr : RpcOutcome) (rep : RpcOutcome) (now : ℤ) : ServiceState :=
  if !s.isLeader then tryToBecomeLeader cfg s rd cr rep now else s

/-- The event callback of `watchLeaseObject`: filter by lease name and
defer the matching handler by 2 s. -/
def watchEventHandler (cfg : Config) (s : ServiceState) (type : String)
    (apiObj : Option V1Lease) : ServiceState :=
  match apiObj with
  | none => s
  | some obj =>
      if obj.name == cfg.leaseName then
        if type == "ADDED" || type == "MODIFIED" then
          { s with deferred := s.deferred ++ [(2000, .runHandleLeaseUpdate obj)] }
        else if type == "DELETED" then
          { s with deferred := s.deferred ++ [(2000, .runHandleLeaseDeletion)] }
        else s
      else s

/-- The close callback of `watchLeaseObject`: whether the stream ended
with an error (`some msg`) or closed gracefully (`none`), schedule a
watch restart after 5000 ms. -/
def watchDoneHandler (s : ServiceState) (_err : Option String) : ServiceState :=
  { s with deferred := s.deferred ++ [(5000, .restartWatch)] }

/-- The renewal-timer callback: the fired timer is consumed; when still
leader, run `renewLease` (errors are caught and only logged). -/
def leaseRenewalTimerFires (cfg : Config) (s : ServiceState) (id : Nat)
    (rd : ReadOutcome) (cr : RpcOutcome) (rep : RpcOutcome) (now : ℤ) : ServiceState :=
  let s1 := { s with pendingTimers := s.pendingTimers.filter (fun t => t != id) }
  if s1.isLeader then renewLease cfg s1 rd cr rep now else s1

/-- The at-most-one-renewal-timer invariant: at most one pending timer,
and any pending timer is the one the stored handle refers to. -/
def TimerInv (s : ServiceState) : Prop :=
  s.pendingTimers.length ≤ 1 ∧
    ∀ id ∈ s.pendingTimers, s.leaseRenewalTimeout = some id

instance (s : ServiceState) : Decidable (TimerInv s) := by
  unfold TimerInv; infer_instance

/-! Concrete fixtures for witnesses and counterexamples:
the configuration of the end-to-end scenarios of the spec
(`leaseName = "test-lease"`, default `renewalInterval = 10000` ms, so
`durationInSeconds = 20`), a lease held by this instance and a fresh
unexpired lease held by a peer. -/

/-- Concrete configuration used by witnesses. -/
def cfg0 : Config :=
  { leaseName := "test-lease"
    ns := "default"
    renewalInterval := 10000
    identity := "nestjs-hostA" }

/-- A lease currently held by this instance. -/
def heldLease : V1Lease :=
  { name := "test-lease"
    spec :=
      { holderIdentity := some "nestjs-hostA"
        leaseDurationSeconds := some 20
        acquireTime := some 0
        renewTime := some 0 } }

/-- A fresh lease held by a peer instance. -/
def peerLease : V1Lease :=
  { name := "test-lease"
    spec :=
      { holderIdentity := some "nestjs-hostB"
        leaseDurationSeconds := some 20
        acquireTime := some 0
        renewTime := some 0 } }

/-- A state in which this instance considers itself leader and holds a
scheduled renewal timer (handle 0). -/
def leaderState : ServiceState :=
  { initialState with
    isLeader := true
    leaseRenewalTimeout := some 0
    pendingTimers := [0]
    nextTimerId := 1 }

/-- A leader state right after its renewal timer fired (the timer was
consumed; the stale handle remains stored, as in the source, where the
handle of an elapsed timeout is not nulled). -/
def firedLeaderState : ServiceState :=
  { initialState with
    isLeader := true
    leaseRenewalTimeout := some 0
    pendingTimers := []
    nextTimerId := 1 }

/-- An attempt environment whose read RPC fails. -/
def envErr : AttemptEnv := { rd := .err, cr := .err, rep := .err, now := 0 }

/-- An attempt environment observing a fresh lease held by a peer. -/
def envPeer : AttemptEnv := { rd := .ok peerLease, cr := .err, rep := .err, now := 500 }

/-! Helper lemmas: which state fields each primitive leaves
untouched. -/

theorem scheduleLeaseRenewal_isLeader (s : ServiceState) :
    (scheduleLeaseRenewal s).isLeader = s.isLeader := by
  unfold scheduleLeaseRenewal
  cases s.leaseRenewalTimeout <;> rfl

theorem scheduleLeaseRenewal_events (s : ServiceState) :
    (scheduleLeaseRenewal s).events = s.events := by
  unfold scheduleLeaseRenewal
  cases s.leaseRenewalTimeout <;> rfl

theorem scheduleLeaseRenewal_rpcs (s : ServiceState) :
    (scheduleLeaseRenewal s).rpcs = s.rpcs := by
  unfold scheduleLeaseRenewal
  cases s.leaseRenewalTimeout <;> rfl

theorem releaseLease_parts (cfg : Config) (s : ServiceState) (rd : ReadOutcome)
    (cr : RpcOutcome) (rep : RpcOutcome) (now : ℤ) :
    (releaseLease cfg s rd cr rep now).isLeader = s.isLeader ∧
    (releaseLease cfg s rd cr rep now).events = s.events ∧
    (releaseLease cfg s rd cr rep now).leaseRenewalTimeout = s.leaseRenewalTimeout ∧
    (releaseLease cfg s rd cr rep now).pendingTimers = s.pendingTimers := by
  unfold releaseLease getLease createLease logRpc
  cases rd <;> cases cr <;> simp <;> split <;> simp

theorem gracefulShutdown_parts (cfg : Config) (s : ServiceState) (rd : ReadOutcome)
    (cr : RpcOutcome) (rep : RpcOutcome) (now : ℤ) :
    (gracefulShutdown cfg s rd cr rep now).isLeader = s.isLeader ∧
    (gracefulShutdown cfg s rd cr rep now).events = s.events ∧
    (gracefulShutdown cfg s rd cr rep now).leaseRenewalTimeout = s.leaseRenewalTimeout ∧
    (gracefulShutdown cfg s rd cr rep now).pendingTimers = s.pendingTimers := by
  unfold gracefulShutdown
  split
  case isTrue => exact releaseLease_parts cfg s rd cr rep now
  case isFalse => exact ⟨rfl, rfl, rfl, rfl⟩

theorem gracefulShutdown_reads (cfg : Config) (s : ServiceState) (rd : ReadOutcome)
    (cr : RpcOutcome) (rep : RpcOutcome) (now : ℤ) (h : s.isLeader = true) :
    ∃ rest, (gracefulShutdown cfg s rd cr rep now).rpcs = s.rpcs ++ RpcCall.read :: rest := by
  unfold gracefulShutdown releaseLease getLease createLease logRpc
  rw [h]
  cases rd <;> cases cr <;> simp <;> split <;> simp

theorem timerInv_pending_nil_of_none (s : ServiceState) (h : TimerInv s)
    (hto : s.leaseRenewalTimeout = none) : s.pendingTimers = [] := by
  cases hp : s.pendingTimers with
  | nil => rfl
  | cons a as =>
      have := h.2 a (by rw [hp]; exact List.mem_cons_self a as)
      rw [hto] at this
      cases this

theorem timerInv_filter_handle (s : ServiceState) (h : TimerInv s) (id : Nat)
    (hto : s.leaseRenewalTimeout = some id) :
    s.pendingTimers.filter (fun t => t != id) = [] := by
  apply List.filter_eq_nil_iff.mpr
  intro a ha
  have := h.2 a ha
  rw [hto] at this
  simp only [Option.some.injEq] at this
  simp [this]

theorem timerInv_schedule (s : ServiceState) (h : TimerInv s) :
    TimerInv (scheduleLeaseRenewal s) := by
  unfold scheduleLeaseRenewal
  cases hto : s.leaseRenewalTimeout with
  | none =>
      have hp := timerInv_pending_nil_of_none s h hto
      constructor
      · simp [hp]
      · intro id hid
        simp [hp] at hid
        simp [hid]
  | some i =>
      have hp := timerInv_filter_handle s h i hto
      constructor
      · simp [hp]
      · intro id hid
        simp [hp] at hid
        simp [hid]

theorem timerInv_lose (cfg : Config) (s : ServiceState) (h : TimerInv s) :
    TimerInv (loseLeadership cfg s) := by
  unfold loseLeadership
  split
  case isTrue =>
    cases hto : s.leaseRenewalTimeout with
    | none =>
        have hp := timerInv_pending_nil_of_none s h hto
        exact ⟨by simp [emitLeadershipLostEvent, hp], by
          intro id hid
          simp [emitLeadershipLostEvent, hp] at hid⟩
    | some i =>
        have hp := timerInv_filter_handle s h i hto
        exact ⟨by simp [emitLeadershipLostEvent, hp], by
          intro id hid
          simp [emitLeadershipLostEvent, hp] at hid⟩
  case isFalse => exact h

theorem timerInv_become (cfg : Config) (s : ServiceState) (h : TimerInv s) :
    TimerInv (becomeLeader cfg s) :=
  timerInv_schedule _ h

theorem timerInv_handleUpdate (cfg : Config) (s : ServiceState) (lease : V1Lease)
    (h : TimerInv s) : TimerInv (handleLeaseUpdate cfg s lease) := by
  unfold handleLeaseUpdate
  split
  case isTrue => split <;> exact timerInv_schedule _ h
  case isFalse =>
    split
    case isTrue => exact timerInv_lose cfg s h
    case isFalse => exact h

theorem timerInv_renew (cfg : Config) (s : ServiceState) (rd : ReadOutcome)
    (cr : RpcOutcome) (rep : RpcOutcome) (now : ℤ) (h : TimerInv s) :
    TimerInv (renewLease cfg s rd cr rep now) := by
  unfold renewLease getLease createLease
  cases rd <;> cases cr <;> cases rep <;>
    simp only [logRpc] <;>
    first
      | exact timerInv_lose cfg _ h
      | (split <;>
          first
            | exact h
            | exact timerInv_lose cfg _ h)

theorem loseLeadership_noop (cfg : Config) (s : ServiceState) (h : s.isLeader = false) :
    loseLeadership cfg s = s := by
  simp [loseLeadership, h]

theorem loseLeadership_isLeader_false (cfg : Config) (s : ServiceState)
    (h : s.isLeader = true) : (loseLeadership cfg s).isLeader = false := by
  unfold loseLeadership
  rw [h]
  cases s.leaseRenewalTimeout <;> rfl

/-- A lease at exactly its expiry boundary for `t = 30000`, `d = 20` s:
`renewTime = 10000`. -/
def boundaryLease : V1Lease :=
  { name := "test-lease"
    spec :=
      { holderIdentity := some "nestjs-hostB"
        leaseDurationSeconds := some 20
        acquireTime := some 10000
        renewTime := some 10000 } }

/-- A lease with no `renewTime`. -/
def noRenewLease : V1Lease :=
  { name := "test-lease"
    spec :=
      { holderIdentity := some "nestjs-hostB"
        leaseDurationSeconds := some 20
        acquireTime := none
        renewTime := none } }

/-- A lease with no `leaseDurationSeconds`. -/
def noDurLease : V1Lease :=
  { name := "test-lease"
    spec :=
      { holderIdentity := some "nestjs-hostB"
        leaseDurationSeconds := none
        acquireTime := some 0
        renewTime := some 0 } }

/-- A lease with `leaseDurationSeconds = 0`. -/
def zeroDurLease : V1Lease :=
  { name := "test-lease"
    spec :=
      { holderIdentity := some "nestjs-hostB"
        leaseDurationSeconds := some 0
        acquireTime := some 0
        renewTime := some 0 } }

/-- C4: `isLeaseExpired` is the strict comparison
`now > renewTime + leaseDurationSeconds * 1000`.  For a lease carrying
a nonzero duration `d`, the predicate holds iff `t` strictly exceeds
`renewTime + d * 1000`; a lease whose `renewTime` is exactly
`t - d * 1000` is not expired at `t`; an absent `renewTime` is treated
as `0`, so such a lease is expired at every `t` past `d * 1000`. -/
theorem C4_expiry_strict (cfg : Config) (l : V1Lease) (t d : ℤ)
    (hd : l.spec.leaseDurationSeconds = some d) (hd0 : d ≠ 0) :
    (isLeaseExpired cfg l t = true ↔ t > renewTimeMs l + d * 1000) ∧
    (l.spec.renewTime = some (t - d * 1000) → isLeaseExpired cfg l t = false) ∧
    (l.spec.renewTime = none →
      renewTimeMs l = 0 ∧ (t > d * 1000 → isLeaseExpired cfg l t = true)) := by
  have hdur : leaseDurationMs cfg l = d * 1000 := by
    unfold leaseDurationMs
    rw [hd]
    simp [hd0]
  refine ⟨by simp [isLeaseExpired, hdur], ?_, ?_⟩
  · intro hr
    have hrt : renewTimeMs l = t - d * 1000 := by unfold renewTimeMs; rw [hr]
    simp [isLeaseExpired, hdur, hrt]
  · intro hr
    have hrt : renewTimeMs l = 0 := by unfold renewTimeMs; rw [hr]
    refine ⟨hrt, ?_⟩
    intro ht
    simp [isLeaseExpired, hdur, hrt]
    omega

/-- Witness for C4 at the scenario values of the spec: a peer lease renewed
at `0` with duration `20` s read at `t = 30000` is expired; the same
numbers at the exact boundary `renewTime = t - 20000` are not; an
absent `renewTime` counts as `0` and is expired at `t = 30000`. -/
theorem C4_expiry_strict_witness :
    (isLeaseExpired cfg0 peerLease 30000 = true ↔
      (30000 : ℤ) > renewTimeMs peerLease + 20 * 1000) ∧
    isLeaseExpired cfg0 boundaryLease 30000 = false ∧
    isLeaseExpired cfg0 noRenewLease 30000 = true :=
  ⟨(C4_expiry_strict cfg0 peerLease 30000 20 (by decide) (by decide)).1,
   (C4_expiry_strict cfg0 boundaryLease 30000 20 (by decide) (by decide)).2.1 (by decide),
   ((C4_expiry_strict cfg0 noRenewLease 30000 20 (by decide) (by decide)).2.2 rfl).2
     (by decide)⟩

/-- C10: when `leaseDurationSeconds` is absent or `0`, the expiry
predicate substitutes the configured duration of the participant
(`2 * renewalInterval / 1000` seconds) instead of rejecting the lease
or treating it as immediately expired. -/
theorem C10_duration_fallback (cfg : Config) (l : V1Lease) (t : ℤ)
    (h : l.spec.leaseDurationSeconds = none ∨ l.spec.leaseDurationSeconds = some 0) :
    leaseDurationMs cfg l = cfg.durationInSeconds * 1000 ∧
    (isLeaseExpired cfg l t = true ↔ t > renewTimeMs l + cfg.durationInSeconds * 1000) ∧
    cfg.durationInSeconds = 2 * (cfg.renewalInterval / 1000) := by
  have hdur : leaseDurationMs cfg l = cfg.durationInSeconds * 1000 := by
    unfold leaseDurationMs
    rcases h with h | h <;> simp [h]
  exact ⟨hdur, by simp [isLeaseExpired, hdur], rfl⟩

/-- Witness for C10: with the default configuration (duration 20 s), a
lease with absent duration is not expired at `t = 10000` (so not
immediately expired) and one with duration `0` is expired at
`t = 30000` (fallback window elapsed). -/
theorem C10_duration_fallback_witness :
    leaseDurationMs cfg0 noDurLease = cfg0.durationInSeconds * 1000 ∧
    isLeaseExpired cfg0 noDurLease 10000 = false ∧
    isLeaseExpired cfg0 zeroDurLease 30000 = true :=
  ⟨(C10_duration_fallback cfg0 noDurLease 10000 (Or.inl rfl)).1, by decide, by decide⟩

/-- C9: for every termination of the watch stream, whether it ends with
an error (`some msg`) or closes gracefully (`none`), the close handler
schedules a restart of the watch after a 5000 ms delay; nothing else
happens, in particular nothing fatal. -/
theorem C9_watch_restart (s : ServiceState) (err : Option String) :
    watchDoneHandler s err =
      { s with deferred := s.deferred ++ [(5000, DeferredAction.restartWatch)] } := rfl

/-- C7: `loseLeadership` from a non-leader state is the identity (no
state change, no event); from a leader state it clears `isLeader`,
leaves no renewal-timer handle (and, under the at-most-one-timer
invariant, no pending renewal timer at all) and emits exactly one
`leader.lost`; it is idempotent. -/
theorem C7_loseLeadership (cfg : Config) (s : ServiceState) :
    (s.isLeader = false → loseLeadership cfg s = s) ∧
    (s.isLeader = true →
      (loseLeadership cfg s).isLeader = false ∧
      (loseLeadership cfg s).leaseRenewalTimeout = none ∧
      (loseLeadership cfg s).events = s.events ++ [LeaderEvent.lost cfg.leaseName] ∧
      (TimerInv s → (loseLeadership cfg s).pendingTimers = [])) ∧
    loseLeadership cfg (loseLeadership cfg s) = loseLeadership cfg s := by
  refine ⟨loseLeadership_noop cfg s, ?_, ?_⟩
  · intro h
    unfold loseLeadership
    rw [h]
    cases hto : s.leaseRenewalTimeout with
    | none =>
        refine ⟨rfl, by simp [emitLeadershipLostEvent, hto], by simp [emitLeadershipLostEvent], ?_⟩
        intro hinv
        simpa [emitLeadershipLostEvent] using timerInv_pending_nil_of_none s hinv hto
    | some i =>
        refine ⟨rfl, by simp [emitLeadershipLostEvent], by simp [emitLeadershipLostEvent], ?_⟩
        intro hinv
        simpa [emitLeadershipLostEvent] using timerInv_filter_handle s hinv i hto
  · by_cases h : s.isLeader
    · exact loseLeadership_noop cfg _ (loseLeadership_isLeader_false cfg s h)
    · have hn := loseLeadership_noop cfg s (by simpa using h)
      rw [hn]
      exact hn

/-- Witness for C7: from the follower `initialState` the call is the
identity; from `leaderState` it clears everything and emits one
`leader.lost`; applying it twice equals applying it once. -/
theorem C7_loseLeadership_witness :
    loseLeadership cfg0 initialState = initialState ∧
    (loseLeadership cfg0 leaderState).isLeader = false ∧
    (loseLeadership cfg0 leaderState).leaseRenewalTimeout = none ∧
    (loseLeadership cfg0 leaderState).events =
      leaderState.events ++ [LeaderEvent.lost "test-lease"] ∧
    (loseLeadership cfg0 leaderState).pendingTimers = [] ∧
    loseLeadership cfg0 (loseLeadership cfg0 leaderState) = loseLeadership cfg0 leaderState := by
  have h1 := C7_loseLeadership cfg0 initialState
  have h2 := C7_loseLeadership cfg0 leaderState
  exact ⟨h1.1 (by decide), (h2.2.1 (by decide)).1, (h2.2.1 (by decide)).2.1,
    (h2.2.1 (by decide)).2.2.1, (h2.2.1 (by decide)).2.2.2 (by decide), h2.2.2⟩

/-- C1 counterexample: `becomeLeader` carries no idempotence guard.
From the fresh state, one call makes us leader; the second call — with
no intervening `loseLeadership` — is not a no-op and emits a second
`leader.elected`, so two calls emit two events, not one. -/
theorem C1_counterexample :
    (becomeLeader cfg0 initialState).isLeader = true ∧
    becomeLeader cfg0 (becomeLeader cfg0 initialState) ≠ becomeLeader cfg0 initialState ∧
    (becomeLeader cfg0 (becomeLeader cfg0 initialState)).events =
      [LeaderEvent.elected "test-lease", LeaderEvent.elected "test-lease"] := by
  decide

/-- C1 (amended): `becomeLeader` itself is unguarded — it always sets
`isLeader`, emits `leader.elected` and schedules renewal, so calling it
twice emits two events.  The idempotent guard sits at the watch call
site: `handleLeaseUpdate` on a lease held by us invokes the (2-second
delayed) `becomeLeader` only when `isLeader` is still false, and when
already leader it only reschedules the renewal timer, emitting
nothing. -/
theorem C1_becomeLeader_guard (cfg : Config) (s : ServiceState) (lease : V1Lease) :
    ((becomeLeader cfg s).isLeader = true ∧
     (becomeLeader cfg s).events = s.events ++ [LeaderEvent.elected cfg.leaseName]) ∧
    (s.isLeader = true → isLeaseHeldByUs cfg lease = true →
      handleLeaseUpdate cfg s lease = scheduleLeaseRenewal s) ∧
    (s.isLeader = false → isLeaseHeldByUs cfg lease = true →
      handleLeaseUpdate cfg s lease =
        scheduleLeaseRenewal
          { s with deferred := s.deferred ++ [(2000, DeferredAction.runBecomeLeader)] }) := by
  refine ⟨⟨?_, ?_⟩, ?_, ?_⟩
  · rw [becomeLeader, scheduleLeaseRenewal_isLeader]
    rfl
  · rw [becomeLeader, scheduleLeaseRenewal_events]
    rfl
  · intro h hheld
    simp [handleLeaseUpdate, h, hheld]
  · intro h hheld
    simp [handleLeaseUpdate, h, hheld]

/-- Witness for C1 (amended) at the concrete fixtures: an event is
emitted from the already-leader state, and `handleLeaseUpdate` takes
the guarded branches. -/
theorem C1_becomeLeader_guard_witness :
    (becomeLeader cfg0 leaderState).events =
      leaderState.events ++ [LeaderEvent.elected "test-lease"] ∧
    handleLeaseUpdate cfg0 leaderState heldLease = scheduleLeaseRenewal leaderState ∧
    handleLeaseUpdate cfg0 initialState heldLease =
      scheduleLeaseRenewal
        { initialState with deferred := [(2000, DeferredAction.runBecomeLeader)] } :=
  ⟨(C1_becomeLeader_guard cfg0 leaderState heldLease).1.2,
   (C1_becomeLeader_guard cfg0 leaderState heldLease).2.1 (by decide) (by decide),
   (C1_becomeLeader_guard cfg0 initialState heldLease).2.2 (by decide) (by decide)⟩

/-- C2 counterexample: from a leader state, `gracefulShutdown` leaves
`isLeader = true` both when all lease RPCs succeed and when they fail —
the release path never clears the flag. -/
theorem C2_counterexample :
    (gracefulShutdown cfg0 leaderState
        (.ok heldLease) (.ok heldLease) (.ok heldLease) 40000).isLeader = true ∧
    (gracefulShutdown cfg0 leaderState .err .err .err 40000).isLeader = true := by
  decide

/-- C2 (amended): `gracefulShutdown` never mutates `isLeader` (nor the
event log or the timers), whatever the outcome of the remote read or
replace: when leader it only re-reads the lease and, if held by us,
writes it back with the holder and `renewTime` cleared, swallowing
every error.  In particular after the release path completes a leader
still has `isLeader = true`. -/
theorem C2_gracefulShutdown_preserves (cfg : Config) (s : ServiceState)
    (rd : ReadOutcome) (cr : RpcOutcome) (rep : RpcOutcome) (now : ℤ) :
    (gracefulShutdown cfg s rd cr rep now).isLeader = s.isLeader ∧
    (gracefulShutdown cfg s rd cr rep now).events = s.events ∧
    (gracefulShutdown cfg s rd cr rep now).leaseRenewalTimeout = s.leaseRenewalTimeout ∧
    (gracefulShutdown cfg s rd cr rep now).pendingTimers = s.pendingTimers :=
  gracefulShutdown_parts cfg s rd cr rep now

/-- C3 counterexample: after a successful renewal (re-read shows the
lease held by us, replace succeeds) from the state whose renewal timer
has just fired, the state differs from the pre-renewal one only by the
RPC log: no new renewal timer was scheduled — pending timers stay
empty — contradicting the claim that success reschedules the timer. -/
theorem C3_counterexample :
    renewLease cfg0 firedLeaderState
        (.ok heldLease) (.ok heldLease) (.ok (renewBody heldLease 30000)) 30000 =
      { firedLeaderState with
        rpcs := [RpcCall.read, RpcCall.replace (renewBody heldLease 30000)] } ∧
    (renewLease cfg0 firedLeaderState
        (.ok heldLease) (.ok heldLease) (.ok (renewBody heldLease 30000)) 30000).pendingTimers
      = [] := by
  decide

/-- C3 (amended): `renewLease` re-reads the lease; if held by us it
writes `renewTime = now` via replace.  On success it merely returns —
it does not reschedule the renewal timer (rescheduling happens only
when the watch later delivers the resulting MODIFIED event to
`handleLeaseUpdate`).  On any failure — read error, lease lazily
created then not held, lease held by someone else, or replace error —
it invokes `loseLeadership`. -/
theorem C3_renewLease (cfg : Config) (s : ServiceState) (lease ret : V1Lease)
    (rep : RpcOutcome) (now : ℤ) :
    (∀ cr, renewLease cfg s .err cr rep now = loseLeadership cfg (logRpc s .read)) ∧
    (isLeaseHeldByUs cfg lease = false →
      ∀ cr, renewLease cfg s (.ok lease) cr rep now = loseLeadership cfg (logRpc s .read)) ∧
    (isLeaseHeldByUs cfg lease = true →
      (∀ cr, renewLease cfg s (.ok lease) cr (.ok ret) now =
        logRpc (logRpc s .read) (.replace (renewBody lease now))) ∧
      (∀ cr, renewLease cfg s (.ok lease) cr .err now =
        loseLeadership cfg (logRpc (logRpc s .read) (.replace (renewBody lease now))))) ∧
    (isLeaseHeldByUs cfg (createBody cfg now) = false →
      renewLease cfg s .notFound (.ok (createBody cfg now)) rep now =
        loseLeadership cfg (logRpc (logRpc s .read) (.create (createBody cfg now)))) := by
  refine ⟨?_, ?_, ?_, ?_⟩
  · intro cr
    rfl
  · intro h cr
    simp [renewLease, getLease, h]
  · intro h
    constructor <;> (intro cr; simp [renewLease, getLease, h])
  · intro h
    simp [renewLease, getLease, createLease, h]

/-- Witness for C3 (amended) at the fixtures: failure paths lose
leadership; the success path only extends the RPC log. -/
theorem C3_renewLease_witness :
    renewLease cfg0 leaderState .err .err .err 30000 =
      loseLeadership cfg0 (logRpc leaderState .read) ∧
    renewLease cfg0 leaderState (.ok peerLease) .err .err 30000 =
      loseLeadership cfg0 (logRpc leaderState .read) ∧
    renewLease cfg0 leaderState (.ok heldLease) .err (.ok (renewBody heldLease 30000)) 30000 =
      logRpc (logRpc leaderState .read) (.replace (renewBody heldLease 30000)) ∧
    renewLease cfg0 leaderState (.ok heldLease) .err .err 30000 =
      loseLeadership cfg0
        (logRpc (logRpc leaderState .read) (.replace (renewBody heldLease 30000))) :=
  ⟨(C3_renewLease cfg0 leaderState heldLease heldLease .err 30000).1 .err,
   (C3_renewLease cfg0 leaderState peerLease heldLease .err 30000).2.1 (by decide) .err,
   ((C3_renewLease cfg0 leaderState heldLease (renewBody heldLease 30000) .err 30000).2.2.1
      (by decide)).1 .err,
   ((C3_renewLease cfg0 leaderState heldLease (renewBody heldLease 30000) .err 30000).2.2.1
      (by decide)).2 .err⟩

/-- The service state right after bootstrapping outside Kubernetes
(the service-host variable absent). -/
def bootNoK8s : ServiceState :=
  (onApplicationBootstrap cfg0 initialState none envErr envErr envErr).fst

/-- C5 counterexample: outside Kubernetes the bootstrap itself performs
no lease RPC and sets `isLeader` true, but the SIGINT/SIGTERM handler
registered in the constructor still runs `gracefulShutdown`, which —
precisely because `isLeader` is true — reads the lease and, finding it
held by us, replaces it.  So lease operations do occur during the
lifetime of the process, contradicting the claim. -/
theorem C5_counterexample :
    bootNoK8s.isLeader = true ∧
    bootNoK8s.rpcs = [] ∧
    (gracefulShutdown cfg0 bootNoK8s (.ok heldLease) (.ok heldLease)
        (.ok (releaseBody heldLease)) 40000).rpcs =
      [RpcCall.read, RpcCall.replace (releaseBody heldLease)] := by
  decide

/-- C5 (amended): when the service-host variable is absent (or empty),
bootstrap forces `isLeader = true`, emits exactly one `leader.elected`,
performs no lease RPC and schedules nothing, and `isLeader` stays true
even through the shutdown path; however, a termination signal does
trigger lease RPCs (a read, then possibly a replace), so lease
operations are avoided only until such a signal. -/
theorem C5_bootstrap_no_k8s (cfg : Config) (s : ServiceState) (k : Option String)
    (e0 e1 e2 : AttemptEnv) (rd : ReadOutcome) (cr : RpcOutcome) (rep : RpcOutcome)
    (now : ℤ) (hk : envPresent k = false) :
    onApplicationBootstrap cfg s k e0 e1 e2 =
      (emitLeaderElectedEvent cfg { s with isLeader := true }, []) ∧
    (emitLeaderElectedEvent cfg { s with isLeader := true }).isLeader = true ∧
    (emitLeaderElectedEvent cfg { s with isLeader := true }).events =
      s.events ++ [LeaderEvent.elected cfg.leaseName] ∧
    (emitLeaderElectedEvent cfg { s with isLeader := true }).rpcs = s.rpcs ∧
    (emitLeaderElectedEvent cfg { s with isLeader := true }).pendingTimers =
      s.pendingTimers ∧
    (gracefulShutdown cfg (emitLeaderElectedEvent cfg { s with isLeader := true })
        rd cr rep now).isLeader = true ∧
    ∃ rest,
      (gracefulShutdown cfg (emitLeaderElectedEvent cfg { s with isLeader := true })
          rd cr rep now).rpcs = s.rpcs ++ RpcCall.read :: rest := by
  refine ⟨?_, rfl, rfl, rfl, rfl, ?_, ?_⟩
  · simp [onApplicationBootstrap, hk]
  · rw [(gracefulShutdown_parts cfg _ rd cr rep now).1]
    rfl
  · exact gracefulShutdown_reads cfg _ rd cr rep now rfl

/-- Witness for C5 (amended) with the environment variable unset. -/
theorem C5_bootstrap_no_k8s_witness :
    onApplicationBootstrap cfg0 initialState none envErr envErr envErr =
      (emitLeaderElectedEvent cfg0 { initialState with isLeader := true }, []) ∧
    (gracefulShutdown cfg0 (emitLeaderElectedEvent cfg0 { initialState with isLeader := true })
        .err .err .err 40000).isLeader = true :=
  ⟨(C5_bootstrap_no_k8s cfg0 initialState none envErr envErr envErr
      .err .err .err 40000 (by decide)).1,
   (C5_bootstrap_no_k8s cfg0 initialState none envErr envErr envErr
      .err .err .err 40000 (by decide)).2.2.2.2.2.1⟩

/-- Predicate: is a bootstrap step an acquisition attempt? -/
def isAttempt : ProcStep → Bool
  | .attempt => true
  | .sleep _ => false

theorem run_shape1 (cfg : Config) (s : ServiceState) (e0 e1 e2 : AttemptEnv)
    (h0 : (attemptWith cfg s e0).isLeader = true) :
    runLeaderElectionProcess cfg s e0 e1 e2 =
      (attemptWith cfg s e0, [.attempt]) := by
  simp [runLeaderElectionProcess, h0]

theorem run_shape2 (cfg : Config) (s : ServiceState) (e0 e1 e2 : AttemptEnv)
    (h0 : (attemptWith cfg s e0).isLeader = false)
    (h1 : (attemptWith cfg (attemptWith cfg s e0) e1).isLeader = true) :
    runLeaderElectionProcess cfg s e0 e1 e2 =
      (attemptWith cfg (attemptWith cfg s e0) e1,
       [.attempt, .sleep (cfg.durationInSeconds * 500), .attempt]) := by
  simp [runLeaderElectionProcess, h0, h1]

theorem run_shape3 (cfg : Config) (s : ServiceState) (e0 e1 e2 : AttemptEnv)
    (h0 : (attemptWith cfg s e0).isLeader = false)
    (h1 : (attemptWith cfg (attemptWith cfg s e0) e1).isLeader = false) :
    runLeaderElectionProcess cfg s e0 e1 e2 =
      (attemptWith cfg (attemptWith cfg (attemptWith cfg s e0) e1) e2,
       [.attempt, .sleep (cfg.durationInSeconds * 500), .attempt,
        .sleep (cfg.durationInSeconds * 500), .attempt]) := by
  simp [runLeaderElectionProcess, h0, h1]

/-- C6: the bootstrap acquisition sequence makes at most three attempts
in total, every sleep between consecutive attempts is exactly
`durationInSeconds * 500` ms (half the lease duration), the sequence
stops as soon as `isLeader` is found true at a loop head, and after the
third attempt the function returns — there is no further acquisition
polling. -/
theorem C6_retry_schedule (cfg : Config) (s : ServiceState) (e0 e1 e2 : AttemptEnv) :
    ((runLeaderElectionProcess cfg s e0 e1 e2).snd.filter isAttempt).length ≤ 3 ∧
    (∀ q, ProcStep.sleep q ∈ (runLeaderElectionProcess cfg s e0 e1 e2).snd →
      q = cfg.durationInSeconds * 500) ∧
    ((attemptWith cfg s e0).isLeader = true →
      (runLeaderElectionProcess cfg s e0 e1 e2).snd = [.attempt]) ∧
    ((attemptWith cfg s e0).isLeader = false →
      (attemptWith cfg (attemptWith cfg s e0) e1).isLeader = true →
      (runLeaderElectionProcess cfg s e0 e1 e2).snd =
        [.attempt, .sleep (cfg.durationInSeconds * 500), .attempt]) ∧
    ((attemptWith cfg s e0).isLeader = false →
      (attemptWith cfg (attemptWith cfg s e0) e1).isLeader = false →
      runLeaderElectionProcess cfg s e0 e1 e2 =
        (attemptWith cfg (attemptWith cfg (attemptWith cfg s e0) e1) e2,
         [.attempt, .sleep (cfg.durationInSeconds * 500), .attempt,
          .sleep (cfg.durationInSeconds * 500), .attempt])) := by
  by_cases h0 : (attemptWith cfg s e0).isLeader
  · rw [run_shape1 cfg s e0 e1 e2 h0]
    refine ⟨by simp [isAttempt], ?_, fun _ => rfl, ?_, ?_⟩
    · intro q hq
      simp at hq
    · intro hc
      rw [h0] at hc
      cases hc
    · intro hc
      rw [h0] at hc
      cases hc
  · have h0f : (attemptWith cfg s e0).isLeader = false := by simpa using h0
    by_cases h1 : (attemptWith cfg (attemptWith cfg s e0) e1).isLeader
    · rw [run_shape2 cfg s e0 e1 e2 h0f h1]
      refine ⟨by simp [isAttempt], ?_, ?_, fun _ _ => rfl, ?_⟩
      · intro q hq
        simp [isAttempt] at hq
        exact hq
      · intro hc
        rw [h0f] at hc
        cases hc
      · intro _ hc
        rw [h1] at hc
        cases hc
    · have h1f : (attemptWith cfg (attemptWith cfg s e0) e1).isLeader = false := by
        simpa using h1
      rw [run_shape3 cfg s e0 e1 e2 h0f h1f]
      refine ⟨by simp [isAttempt], ?_, ?_, ?_, fun _ _ => rfl⟩
      · intro q hq
        simp [isAttempt] at hq
        tauto
      · intro hc
        rw [h0f] at hc
        cases hc
      · intro _ hc
        rw [h1f] at hc
        cases hc

/-- An attempt environment in which the attempt succeeds: the read
shows an expired peer lease, the replace returns a lease held by us. -/
def envAcq : AttemptEnv :=
  { rd := .ok peerLease, cr := .err, rep := .ok heldLease, now := 30000 }

/-- Witness for C6: with a fresh unexpired peer lease all three
attempts run, spaced by 10 s (half of the 20 s lease duration); with an
expired lease the sequence stops after the first attempt. -/
theorem C6_retry_schedule_witness :
    (runLeaderElectionProcess cfg0 initialState envPeer envPeer envPeer).snd =
      [.attempt, .sleep 10000, .attempt, .sleep 10000, .attempt] ∧
    (runLeaderElectionProcess cfg0 initialState envAcq envAcq envAcq).snd = [.attempt] := by
  have hd : cfg0.durationInSeconds * 500 = 10000 := by decide
  constructor
  · have h := (C6_retry_schedule cfg0 initialState envPeer envPeer envPeer).2.2.2.2
      (by decide) (by decide)
    rw [h, hd]
  · exact (C6_retry_schedule cfg0 initialState envAcq envAcq envAcq).2.2.1 (by decide)

/-- C8: every engine operation — `becomeLeader`,
`scheduleLeaseRenewal`, `handleLeaseUpdate`, `loseLeadership` and the
renewal path — preserves the invariant that at most one renewal timer
is pending and that the stored handle refers to it: an existing timer
is always cancelled before a new one is scheduled. -/
theorem C8_timer_invariant (cfg : Config) (s : ServiceState) (lease : V1Lease)
    (rd : ReadOutcome) (cr : RpcOutcome) (rep : RpcOutcome) (now : ℤ)
    (h : TimerInv s) :
    TimerInv (becomeLeader cfg s) ∧
    TimerInv (scheduleLeaseRenewal s) ∧
    TimerInv (handleLeaseUpdate cfg s lease) ∧
    TimerInv (loseLeadership cfg s) ∧
    TimerInv (renewLease cfg s rd cr rep now) :=
  ⟨timerInv_become cfg s h, timerInv_schedule s h, timerInv_handleUpdate cfg s lease h,
   timerInv_lose cfg s h, timerInv_renew cfg s rd cr rep now h⟩

/-- Witness for C8 at the leader fixture, which holds one pending
timer. -/
theorem C8_timer_invariant_witness :
    TimerInv leaderState ∧
    TimerInv (becomeLeader cfg0 leaderState) ∧
    TimerInv (scheduleLeaseRenewal leaderState) ∧
    TimerInv (handleLeaseUpdate cfg0 leaderState peerLease) ∧
    TimerInv (loseLeadership cfg0 leaderState) ∧
    TimerInv (renewLease cfg0 leaderState (.ok heldLease) .err .err 30000) := by
  have h := C8_timer_invariant cfg0 leaderState peerLease (.ok heldLease) .err .err 30000
    (by decide)
  exact ⟨by decide, h.1, h.2.1, h.2.2.1, h.2.2.2.1, h.2.2.2.2⟩

end LeaderElection
